import Mathlib

/-!
Verification of the Pdf_Parser agent (`agent.py`) and the generated
statement parser (`custom_parsers/icici_parser.py`) against its
natural-language specification.

The embedding is shallow: the pure string manipulation of the Python
source is translated function by function; the two external effects of
one loop iteration (the model call and the validator subprocess) are
modelled as oracles indexed by the attempt counter, exactly the value the
source passes through its loop.  Machine-level concerns (the actual
filesystem, the network) are represented by the values the source reads
from them: the validator subprocess by its exit status and captured
streams, a file write by the string written.
-/

/-! ## Python string primitives

The agent manipulates Python `str` values.  These helpers model the
exact Python operations the source uses: substring containment (`in`),
`str.strip()`, `str.upper()`, and `re.sub(r"\s+", " ", ...)`.
-/

/-- Does the character list `s` start with the list `p`?  Models Python
`startswith`, used to search for literal substrings. -/
def charsStartWith : List Char → List Char → Bool
  | _, [] => true
  | [], _ :: _ => false
  | c :: cs, p :: ps => (c = p) && charsStartWith cs ps

/-- Does `p` occur as a contiguous sublist of `s`?  Models Python's
`p in s` on strings (true for the empty pattern, as in Python). -/
def charsHasSub : List Char → List Char → Bool
  | [], p => charsStartWith [] p
  | c :: cs, p => charsStartWith (c :: cs) p || charsHasSub cs p

/-- Python `pat in s` for strings. -/
def strHasSub (s pat : String) : Bool :=
  charsHasSub s.data pat.data

/-- The characters Python `str.strip()` removes and `\s` matches
(ASCII): space, tab, newline, carriage return, vertical tab, form feed. -/
def pyWs (c : Char) : Bool :=
  c = ' ' || c = '\t' || c = '\n' || c = '\r' || c = '\x0b' || c = '\x0c'

/-- Python `str.strip()` on a character list. -/
def pyStripChars (l : List Char) : List Char :=
  ((l.dropWhile pyWs).reverse.dropWhile pyWs).reverse

/-- Python `str.strip()`. -/
def pyStrip (s : String) : String :=
  String.mk (pyStripChars s.data)

/-- Python `str.upper()` restricted to ASCII text, which is all the agent
ever upper-cases (the target identifier). -/
def pyUpper (s : String) : String :=
  String.mk (s.data.map Char.toUpper)

/-- Replace every maximal run of whitespace by one space: the effect of
Python `re.sub(r"\s+", " ", cell)`. -/
def squeezeWs : List Char → List Char
  | [] => []
  | [c] => if pyWs c then [' '] else [c]
  | c :: d :: cs =>
    if pyWs c && pyWs d then squeezeWs (d :: cs)
    else if pyWs c then ' ' :: squeezeWs (d :: cs)
    else c :: squeezeWs (d :: cs)

/-- The suffix of `s` after the first occurrence of `p`, or `none` when
`p` does not occur. -/
def splitAfterFirst : List Char → List Char → Option (List Char)
  | s, p =>
    if charsStartWith s p then some (s.drop p.length)
    else
      match s with
      | [] => none
      | _ :: cs => splitAfterFirst cs p

/-- The strict prefix of `s` before the first occurrence of `p`, or
`none` when `p` does not occur. -/
def takeUntilSub : List Char → List Char → Option (List Char)
  | s, p =>
    if charsStartWith s p then some []
    else
      match s with
      | [] => none
      | c :: cs => (takeUntilSub cs p).map (c :: ·)

/-! ## agent.py: configuration and utility functions -/

/-- `MAX_ATTEMPTS = 3` (agent.py line 12): the retry budget. -/
def MAX_ATTEMPTS : Nat := 3

/-- The characters `"```python\n"`: the opening fence of the regex
`r"```python\n(.*?)```"` in `extract_python_code`. -/
def fenceOpen : List Char := ("```python\n" : String).data

/-- The characters `"```"`: the closing fence of that regex. -/
def fenceClose : List Char := ("```" : String).data

/-- Does the response contain a complete fenced Python block, i.e. does
the regex `r"```python\n(.*?)```"` (DOTALL) match? -/
def hasPyFence (response : String) : Bool :=
  match splitAfterFirst response.data fenceOpen with
  | none => false
  | some rest => (takeUntilSub rest fenceClose).isSome

/-- `extract_python_code` (agent.py lines 73-78): the interior of the
first fenced Python block, stripped; when the regex does not match, the
whole response stripped.  `re.search` with a lazy `(.*?)` returns the
leftmost match, so the interior runs from the first `"```python\n"` to
the first `"```"` after it; if no closing fence follows the first
opening fence, none follows any later one either, so the regex fails
exactly when this model falls back. -/
def extract_python_code (response : String) : String :=
  match splitAfterFirst response.data fenceOpen with
  | none => pyStrip response
  | some rest =>
    match takeUntilSub rest fenceClose with
    | some interior => pyStrip (String.mk interior)
    | none => pyStrip response

/-- `required_imports` (agent.py lines 85-89). -/
def required_imports : List String :=
  ["import pandas as pd", "import pdfplumber", "import re"]

/-- The file content `save_parser` writes (agent.py lines 80-95,
`final_code`): the fixed import preamble, a blank line, then the
generated code.  (The Lean name drops the underscore of `save_parser`.) -/
def saveParser (code : String) : String :=
  String.intercalate "\n" required_imports ++ "\n\n" ++ code

/-- The parser file's content after `save_parser` runs: the file is
opened with mode `"w"`, so whatever content was there before (`prior`,
`none` when the file did not exist) is discarded and replaced. -/
def writeParserFile (prior : Option String) (code : String) : Option String :=
  let _ := prior
  some (saveParser code)

/-- The observable behaviour of one run of the validation subprocess:
its exit status and its two captured streams (agent.py lines 103-107,
`subprocess.run(..., capture_output=True, text=True)`). -/
structure SubprocResult where
  returncode : Int
  stdout : String
  stderr : String
deriving DecidableEq

/-- `run_test_and_capture_output` (agent.py lines 97-115) without the
spawning plumbing: from the subprocess's observable outcome, the verdict
and the diagnostic. The function is total: every subprocess outcome is
mapped to a verdict, none raises. -/
def run_test_and_capture_output (r : SubprocResult) : String × String :=
  let output := r.stdout ++ r.stderr
  if r.returncode = 0 && strHasSub output "SUCCESS" then ("PASS", output)
  else ("FAIL", output)

/-- Python `repr` of a string without quotes or escapes in it, as the
f-string `f"{columns}"` renders each element of the column list (the
column names contain neither). -/
def pyReprStr (s : String) : String :=
  "'" ++ s ++ "'"

/-- Python `str` of a list of such strings, as `f"{columns}"` renders
the column list. -/
def pyReprStrList (l : List String) : String :=
  "[" ++ String.intercalate ", " (l.map pyReprStr) ++ "]"

/-- The fallback column list of `generate_prompt` (agent.py line 125). -/
def fallbackColumns : List String :=
  ["Date", "Description", "Withdrawal", "Deposit", "Balance"]

/-- `generate_prompt` (agent.py lines 117-161).  The one effect of the
source function, `pd.read_csv(csv_path)`, is modelled by its result:
`csvColumns` is `some` the column list when the read succeeds and `none`
when it raises (the `except` arm then supplies the hardcoded fallback).
The string below is the source's f-string text, character for
character, with each interpolation replaced by concatenation. -/
def generate_prompt (target pdf_text : String) (csvColumns : Option (List String))
    (is_initial : Bool) (previous_code error_trace : String) : String :=
  let columns := csvColumns.getD fallbackColumns
  let base_prompt :=
    "\nYou are an expert \"Agent-as-Coder\" AI. Your goal is to write a Python parser for the bank statement PDF.\n\nCONTEXT:\n- **Target Bank:** "
    ++ pyUpper target
    ++ "\n- **Target Schema (Columns):** "
    ++ pyReprStrList columns
    ++ ".\n- **PDF Raw Text Sample (for context):** --- START SAMPLE ---\n"
    ++ pdf_text
    ++ "\n--- END SAMPLE ---\n\nCONSTRAINTS:\n1.  **Tool Use:** You MUST use the `pdfplumber` library to handle tables robustly.\n2.  **Parser Contract (T3):** The file MUST define a single function: `def parse(pdf_path: str) -> pd.DataFrame:`.\n3.  **Data Transformation:** Map the input columns ('Debit Amt' and 'Credit Amt') to the target schema ('Withdrawal' and 'Deposit'). Missing values must be NaN. Dates must be standardized to YYYY-MM-DD format.\n"
  if is_initial then
    base_prompt
    ++ "\n**TASK:** Write the complete initial Python code for the function. Output ONLY the Python code block (using ```python ... ```)."
  else
    base_prompt
    ++ "\n\nYour previous code attempt failed the automated tests. Analyze the **ERROR TRACE** and **PREVIOUS CODE** to identify and fix the bug.\n\nPREVIOUS CODE (FAILED):\n```python\n"
    ++ previous_code
    ++ "\n```\n\nERROR TRACE (OBSERVATION):\n```\n"
    ++ error_trace
    ++ "\n```\n\n**INSTRUCTIONS:** Write the complete, fixed Python code block containing ONLY the `parse` function and necessary helpers. Do not include commentary.\n"

/-! ## agent.py: the retry controller (`run_agent`, lines 165-236)

The loop's two external collaborators are oracles indexed by the value
of the attempt counter at the call site: `R i` is the text
`get_llm_response` returns on the iteration whose counter is `i` (the
source folds an API exception into that text as `"LLM_API_ERROR: ..."`),
and `V i` the observable outcome of the validation subprocess run on
that iteration.  The counter is `i` on the `i`-th iteration, so this
indexes calls in order.
-/

/-- How one run of `run_agent` ends: the `return` after the success
banner, the two `break`s, or the `while` guard going false. -/
inductive Outcome where
  | success
  | abortedApiError
  | abortedEmpty
  | exhausted
deriving DecidableEq

/-- The controller's state at the top of one loop iteration (a
`GENERATING` state of the spec), plus the prompt built there. -/
structure IterRecord where
  attempts : Nat
  previous_code : String
  error_trace : String
  prompt : String
deriving DecidableEq

/-- Everything observable about one run of the loop: how it ended, the
final value of `attempts`, the per-iteration states, the artifact
contents written (one per `save_parser` call, in order), and the
validator verdicts captured (one per subprocess run, in order). -/
structure RunResult where
  outcome : Outcome
  finalAttempts : Nat
  gens : List IterRecord
  writes : List String
  validations : List (String × String)
deriving DecidableEq

/-- The `while attempts < MAX_ATTEMPTS` loop of `run_agent` (agent.py
lines 191-231), with the state the source threads through it
(`attempts`, `previous_code`, `error_trace`) explicit.  `fuel` only
bounds the recursion depth: the loop guard is the source's
`attempts < MAX_ATTEMPTS`, and `run_loop_fuel_irrelevant` below shows
any `fuel ≥ MAX_ATTEMPTS - attempts` gives the same result, so the
bound is never the reason a run stops. -/
def run_loop (R : Nat → String) (V : Nat → SubprocResult) (target pdf_text : String)
    (csvColumns : Option (List String)) :
    Nat → Nat → String → String → RunResult
  | 0, attempts, _, _ => ⟨Outcome.exhausted, attempts, [], [], []⟩
  | fuel + 1, attempts, previous_code, error_trace =>
    if attempts < MAX_ATTEMPTS then
      let is_initial := attempts == 0
      let prompt := generate_prompt target pdf_text csvColumns is_initial previous_code error_trace
      let llm_output := R attempts
      let rec0 : IterRecord := ⟨attempts, previous_code, error_trace, prompt⟩
      if strHasSub llm_output "LLM_API_ERROR" then
        ⟨Outcome.abortedApiError, attempts, [rec0], [], []⟩
      else
        let generated_code := extract_python_code llm_output
        if pyStrip generated_code = "" then
          ⟨Outcome.abortedEmpty, attempts, [rec0], [], []⟩
        else
          let artifact := saveParser generated_code
          let rv := run_test_and_capture_output (V attempts)
          if rv.1 = "PASS" then
            ⟨Outcome.success, attempts, [rec0], [artifact], [rv]⟩
          else
            let rest := run_loop R V target pdf_text csvColumns fuel (attempts + 1) generated_code rv.2
            ⟨rest.outcome, rest.finalAttempts, rec0 :: rest.gens,
              artifact :: rest.writes, rv :: rest.validations⟩
    else ⟨Outcome.exhausted, attempts, [], [], []⟩

/-- `run_agent` after its two prerequisite checks: the loop entered with
`attempts = 0`, `previous_code = ""`, `error_trace = ""` (agent.py lines
186-191). -/
def run_agent (R : Nat → String) (V : Nat → SubprocResult) (target pdf_text : String)
    (csvColumns : Option (List String)) : RunResult :=
  run_loop R V target pdf_text csvColumns MAX_ATTEMPTS 0 "" ""

/-- The process exit status `run_agent` produces (agent.py lines
165-236): `sys.exit(1)` when a fixture file is missing or the PDF text
extraction raises; otherwise the loop runs and the function returns
normally — whatever the run's outcome — so the interpreter exits 0. -/
def run_agent_exit (files_exist pdf_read_ok : Bool) (R : Nat → String)
    (V : Nat → SubprocResult) (target pdf_text : String)
    (csvColumns : Option (List String)) : Nat :=
  if !files_exist then 1
  else if !pdf_read_ok then 1
  else
    let _ := run_agent R V target pdf_text csvColumns
    0

/-- The `__main__` block (agent.py lines 239-248): `sys.exit(1)` when
`GEMINI_API_KEY` is unset, else whatever `run_agent` makes of the run. -/
def main_exit (api_key_set files_exist pdf_read_ok : Bool) (R : Nat → String)
    (V : Nat → SubprocResult) (target pdf_text : String)
    (csvColumns : Option (List String)) : Nat :=
  if !api_key_set then 1
  else run_agent_exit files_exist pdf_read_ok R V target pdf_text csvColumns

/-! ## custom_parsers/icici_parser.py: the generated artifact's `parse`

The artifact's one entry point reads the PDF through
`pdfplumber.open(...).pages[*].extract_tables()`; the embedding starts
from that extraction's result — a list of pages, each a list of tables,
each a list of rows, each a list of cells (`None` or a string) — and
translates the pure processing the function applies to it.  The pandas
column operations are applied row-wise, which is what they do: each
transformation (`to_datetime`/`strftime`, `to_numeric`, `dropna`,
`rename`, column selection) acts elementwise on the collected rows.
-/

/-- A cell as `extract_tables` yields it: `None` or a string. -/
abbrev PdfCell := Option String

/-- `pdf_header_columns` (icici_parser.py line 23). -/
def pdf_header_columns : List String :=
  ["Date", "Description", "Debit Amt", "Credit Amt", "Balance"]

/-- `target_schema_columns` (icici_parser.py line 25). -/
def target_schema_columns : List String :=
  ["Date", "Description", "Withdrawal", "Deposit", "Balance"]

/-- The cell normalisation of line 42:
`re.sub(r"\s+", " ", cell).strip()`. -/
def normCell (s : String) : String :=
  pyStrip (String.mk (squeezeWs s.data))

/-- Does the string match `re.match(r"^\d{2}-\d{2}-\d{4}$", s)` exactly
(ten characters, digits and dashes in place)? -/
def isDateShape : List Char → Bool
  | [a, b, c, d, e, f, g, h, i, j] =>
    a.isDigit && b.isDigit && c = '-' && d.isDigit && e.isDigit && f = '-'
      && g.isDigit && h.isDigit && i.isDigit && j.isDigit
  | _ => false

/-- `re.match(r"^\d{2}-\d{2}-\d{4}$", s)` as a Boolean.  Python's `$`
also matches just before one final newline, so an eleventh character is
allowed when it is `'\n'` (unreachable here — the cells tested are
already stripped — but kept for fidelity). -/
def pyMatchDate (s : String) : Bool :=
  isDateShape s.data
    || (s.data.length = 11 && s.data.getLast? = some '\n' && isDateShape (s.data.take 10))

/-- The row cleaning of line 35: `cell.strip() if cell is not None else ''`. -/
def cleanRow (row : List PdfCell) : List String :=
  row.map fun cell => (cell.map pyStrip).getD ""

/-- `all_transactions_data` (icici_parser.py lines 21-56): every cleaned
row that is not blank, is not the header row, has exactly 5 cells and
starts with a `DD-MM-YYYY`-shaped date. -/
def collectTransactionRows
    (pages : List (List (List (List PdfCell)))) : List (List String) :=
  pages.flatMap fun page =>
    page.flatMap fun table =>
      table.filterMap fun row =>
        let cleaned_row := cleanRow row
        if cleaned_row.all (· = "") then none
        else if cleaned_row.map normCell = pdf_header_columns then none
        else if cleaned_row.length = 5 && pyMatchDate (cleaned_row.headD "") then
          some cleaned_row
        else none

/-- Gregorian leap year, as `datetime` uses it. -/
def isLeap (y : Nat) : Bool :=
  (y % 4 = 0 && y % 100 ≠ 0) || y % 400 = 0

/-- Days in a month. -/
def daysInMonth (y m : Nat) : Nat :=
  if m = 2 then (if isLeap y then 29 else 28)
  else if m = 4 || m = 6 || m = 9 || m = 11 then 30
  else 31

/-- Lexicographic order on (year, month, day). -/
def dateTripleLE (a b : Nat × Nat × Nat) : Bool :=
  a.1 < b.1 || (a.1 = b.1 && (a.2.1 < b.2.1 || (a.2.1 = b.2.1 && a.2.2 ≤ b.2.2)))

/-- Is (y, m, d) a calendar date that `pd.to_datetime(...,
format="%d-%m-%Y", errors="coerce")` turns into a timestamp rather than
`NaT`: a real Gregorian date whose midnight lies within the
`pd.Timestamp` range (1677-09-21 00:12 .. 2262-04-11 23:47, so midnights
of 1677-09-22 through 2262-04-11)? -/
def validTimestampDate (y m d : Nat) : Bool :=
  1 ≤ m && m ≤ 12 && 1 ≤ d && d ≤ daysInMonth y m
    && dateTripleLE (1677, 9, 22) (y, m, d) && dateTripleLE (y, m, d) (2262, 4, 11)

/-- The value of one digit character. -/
def digitVal (c : Char) : Nat := c.toNat - 48

/-- `pd.to_datetime(s, format="%d-%m-%Y", errors="coerce")` on one
entry: the (year, month, day) when the string is exactly `DD-MM-YYYY`
and a representable date, else `none` (`NaT`). -/
def parseTxDate (s : String) : Option (Nat × Nat × Nat) :=
  match s.data with
  | [d1, d2, '-', m1, m2, '-', y1, y2, y3, y4] =>
    if d1.isDigit && d2.isDigit && m1.isDigit && m2.isDigit
        && y1.isDigit && y2.isDigit && y3.isDigit && y4.isDigit then
      let d := 10 * digitVal d1 + digitVal d2
      let m := 10 * digitVal m1 + digitVal m2
      let y := 1000 * digitVal y1 + 100 * digitVal y2 + 10 * digitVal y3 + digitVal y4
      if validTimestampDate y m d then some (y, m, d) else none
    else none
  | _ => none

/-- Left zero-padding to two digits (`strftime` `%d`, `%m`). -/
def pad2 (n : Nat) : String :=
  if n < 10 then "0" ++ toString n else toString n

/-- Left zero-padding to four digits (`strftime` `%Y`). -/
def pad4 (n : Nat) : String :=
  (if n < 10 then "000" else if n < 100 then "00" else if n < 1000 then "0" else "")
    ++ toString n

/-- `dt.strftime("%Y-%m-%d")` on one timestamp. -/
def formatISO (y m d : Nat) : String :=
  pad4 y ++ "-" ++ pad2 m ++ "-" ++ pad2 d

/-- The leading digits of a character list and what follows them. -/
def takeDigits (l : List Char) : List Char × List Char :=
  (l.takeWhile Char.isDigit, l.dropWhile Char.isDigit)

/-- The value of a digit run. -/
def digitsVal (ds : List Char) : Nat :=
  ds.foldl (fun a c => 10 * a + digitVal c) 0

/-- `pd.to_numeric(s, errors="coerce")` on one already-stripped cell:
an optionally signed decimal literal with optional fraction and
exponent parses to its rational value, anything else (the empty string
included) is `none` (`NaN`). -/
def pyFloat (s : String) : Option ℚ :=
  let l := s.data
  let signed : Int × List Char :=
    match l with
    | '-' :: rest => (-1, rest)
    | '+' :: rest => (1, rest)
    | _ => (1, l)
  let ip := takeDigits signed.2
  let fracSplit : List Char × List Char :=
    match ip.2 with
    | '.' :: rest => takeDigits rest
    | _ => ([], ip.2)
  if ip.1.length = 0 && fracSplit.1.length = 0 then none
  else
    let mant : Nat := digitsVal ip.1 * 10 ^ fracSplit.1.length + digitsVal fracSplit.1
    let expPart : Option (Int × List Char) :=
      match fracSplit.2 with
      | 'e' :: rest | 'E' :: rest =>
        let esigned : Int × List Char :=
          match rest with
          | '-' :: t => (-1, t)
          | '+' :: t => (1, t)
          | _ => (1, rest)
        let ed := takeDigits esigned.2
        if ed.1.length = 0 then none else some (esigned.1 * digitsVal ed.1, ed.2)
      | [] => some (0, [])
      | _ => none
    match expPart with
    | some (e, []) =>
      some (mkRat (signed.1 * mant * 10 ^ e.toNat)
        (10 ^ fracSplit.1.length * 10 ^ (-e).toNat))
    | _ => none

/-- The numeric-column conversion of lines 74-76: `''` is first replaced
by `NA`, then `pd.to_numeric(..., errors="coerce")` runs. -/
def pdCellToNumeric (s : String) : Option ℚ :=
  if s = "" then none else pyFloat s

/-- One row of the final DataFrame, in target-schema column order. -/
structure TxRow where
  date : String
  description : String
  withdrawal : Option ℚ
  deposit : Option ℚ
  balance : Option ℚ
deriving DecidableEq

/-- The final DataFrame: its column list and its rows. -/
structure ParseResult where
  columns : List String
  rows : List TxRow
deriving DecidableEq

/-- `parse` (icici_parser.py lines 9-88) from the table-extraction
result: collect the transaction rows, convert dates (lines 67-69) and
numeric columns (lines 71-76), drop rows whose date failed to parse
(line 80), rename `Debit Amt`/`Credit Amt` to `Withdrawal`/`Deposit`
(line 83) and order the columns to the target schema (line 86).  The
Lean name carries the `icici_` prefix because the embedding sits in one
flat file. -/
def icici_parse (pages : List (List (List (List PdfCell)))) : ParseResult :=
  let all_transactions_data := collectTransactionRows pages
  if all_transactions_data = [] then ⟨target_schema_columns, []⟩
  else
    let rows := all_transactions_data.filterMap fun r =>
      match parseTxDate (r.headD "") with
      | none => none
      | some (y, m, d) =>
        some ⟨formatISO y m d, r.getD 1 "",
          pdCellToNumeric (r.getD 2 ""), pdCellToNumeric (r.getD 3 ""),
          pdCellToNumeric (r.getD 4 "")⟩
    ⟨target_schema_columns, rows⟩

/-! ## Concrete runs used by witnesses and counterexamples -/

/-- A model oracle that always returns the same fence-less code text. -/
def cexR : Nat → String := fun _ => "x = 1"

/-- A validator oracle that always fails with the same diagnostic:
exit status 1, output `"boom"`. -/
def cexV : Nat → SubprocResult := fun _ => ⟨1, "boom", ""⟩

/-- A model oracle whose response text carries the API-error marker, as
`get_llm_response` produces on an exception. -/
def apiR : Nat → String := fun _ => "LLM_API_ERROR: Client failure: no network"

/-- A model oracle returning non-empty code. -/
def passR : Nat → String := fun _ => "ok = True"

/-- A validator oracle that succeeds: exit status 0 and the `SUCCESS`
marker in the captured output. -/
def passV : Nat → SubprocResult := fun _ => ⟨0, "--- Running Test ---\nSUCCESS", ""⟩

/-- A model oracle returning only whitespace, so the extracted code is
empty after stripping. -/
def emptyR : Nat → String := fun _ => " "

/-- A table extraction with a header row and one transaction row whose
`Debit Amt` cell is the string `"0"`. -/
def c9_input : List (List (List (List PdfCell))) :=
  [[[[some "Date", some "Description", some "Debit Amt", some "Credit Amt", some "Balance"],
     [some "01-01-2024", some "desc", some "0", some "", some "100.00"]]]]

/-! ## Helper lemmas -/

set_option maxRecDepth 100000

/-- A list always starts with its own prefix. -/
theorem charsStartWith_append (p t : List Char) : charsStartWith (p ++ t) p = true := by
  induction p with
  | nil => cases t <;> rfl
  | cons c cs ih => simp [charsStartWith, ih]

/-- The verdict string is always one of the two literals. -/
theorem run_test_fst_cases (r : SubprocResult) :
    (run_test_and_capture_output r).1 = "PASS" ∨
      (run_test_and_capture_output r).1 = "FAIL" := by
  unfold run_test_and_capture_output
  by_cases h : (r.returncode = 0 && strHasSub (r.stdout ++ r.stderr) "SUCCESS") = true
  · rw [if_pos h]; exact Or.inl rfl
  · rw [if_neg h]; exact Or.inr rfl

/-- An initial prompt ends with the period of the TASK sentence. -/
theorem generate_prompt_true_last (t p : String) (c : Option (List String)) (pc et : String) :
    (generate_prompt t p c true pc et).data.getLast? = some '.' := by
  simp only [generate_prompt]
  rw [if_pos (by decide)]
  rw [String.data_append, List.getLast?_append_of_ne_nil _ (by decide)]
  decide

/-- A refinement prompt ends with the newline closing the INSTRUCTIONS
paragraph. -/
theorem generate_prompt_false_last (t p : String) (c : Option (List String)) (pc et : String) :
    (generate_prompt t p c false pc et).data.getLast? = some '\n' := by
  simp only [generate_prompt]
  rw [if_neg (by decide)]
  rw [String.data_append, List.getLast?_append_of_ne_nil _ (by decide)]
  decide

/-- An initial prompt never coincides with a refinement prompt: their
last characters differ. -/
theorem generate_prompt_initial_ne (t p : String) (c : Option (List String))
    (pc0 et0 pc et : String) :
    generate_prompt t p c true pc0 et0 ≠ generate_prompt t p c false pc et := by
  intro h
  have h1 := generate_prompt_true_last t p c pc0 et0
  have h2 := generate_prompt_false_last t p c pc et
  rw [h, h2] at h1
  exact absurd h1 (by decide)

/-- With the guard false (`attempts ≥ MAX_ATTEMPTS`) the loop body never
runs: the run ends exhausted with the counter unchanged. -/
theorem run_loop_guard_false (R : Nat → String) (V : Nat → SubprocResult)
    (t p : String) (c : Option (List String)) (fuel a : Nat) (pc et : String)
    (ha : ¬ a < MAX_ATTEMPTS) :
    run_loop R V t p c fuel a pc et = ⟨Outcome.exhausted, a, [], [], []⟩ := by
  cases fuel <;> simp [run_loop, ha]

/-- One iteration whose model response carries the API-error marker:
the loop breaks at once, writing nothing and validating nothing. -/
theorem run_loop_api_step (R : Nat → String) (V : Nat → SubprocResult)
    (t p : String) (c : Option (List String)) (fuel a : Nat) (pc et : String)
    (ha : a < MAX_ATTEMPTS)
    (hapi : strHasSub (R a) "LLM_API_ERROR" = true) :
    run_loop R V t p c (fuel + 1) a pc et =
      ⟨Outcome.abortedApiError, a,
        [⟨a, pc, et, generate_prompt t p c (a == 0) pc et⟩], [], []⟩ := by
  simp [run_loop, ha, hapi]

/-- One iteration whose extracted code strips to the empty string: the
loop breaks, writing nothing and validating nothing. -/
theorem run_loop_empty_step (R : Nat → String) (V : Nat → SubprocResult)
    (t p : String) (c : Option (List String)) (fuel a : Nat) (pc et : String)
    (ha : a < MAX_ATTEMPTS)
    (hapi : strHasSub (R a) "LLM_API_ERROR" = false)
    (hempty : pyStrip (extract_python_code (R a)) = "") :
    run_loop R V t p c (fuel + 1) a pc et =
      ⟨Outcome.abortedEmpty, a,
        [⟨a, pc, et, generate_prompt t p c (a == 0) pc et⟩], [], []⟩ := by
  simp [run_loop, ha, hapi, hempty]

/-- One iteration whose validation passes: the loop returns success
after exactly one write and one validation, counter unchanged. -/
theorem run_loop_pass_step (R : Nat → String) (V : Nat → SubprocResult)
    (t p : String) (c : Option (List String)) (fuel a : Nat) (pc et : String)
    (ha : a < MAX_ATTEMPTS)
    (hapi : strHasSub (R a) "LLM_API_ERROR" = false)
    (hne : pyStrip (extract_python_code (R a)) ≠ "")
    (hpass : (run_test_and_capture_output (V a)).1 = "PASS") :
    run_loop R V t p c (fuel + 1) a pc et =
      ⟨Outcome.success, a,
        [⟨a, pc, et, generate_prompt t p c (a == 0) pc et⟩],
        [saveParser (extract_python_code (R a))],
        [run_test_and_capture_output (V a)]⟩ := by
  simp [run_loop, ha, hapi, hne, hpass]

/-- One iteration whose validation fails: the loop writes once,
validates once, replaces the feedback context with this iteration's
code and diagnostic, increments the counter and continues. -/
theorem run_loop_fail_step (R : Nat → String) (V : Nat → SubprocResult)
    (t p : String) (c : Option (List String)) (fuel a : Nat) (pc et : String)
    (ha : a < MAX_ATTEMPTS)
    (hapi : strHasSub (R a) "LLM_API_ERROR" = false)
    (hne : pyStrip (extract_python_code (R a)) ≠ "")
    (hfail : (run_test_and_capture_output (V a)).1 = "FAIL") :
    run_loop R V t p c (fuel + 1) a pc et =
      ⟨(run_loop R V t p c fuel (a + 1) (extract_python_code (R a))
          (run_test_and_capture_output (V a)).2).outcome,
        (run_loop R V t p c fuel (a + 1) (extract_python_code (R a))
          (run_test_and_capture_output (V a)).2).finalAttempts,
        ⟨a, pc, et, generate_prompt t p c (a == 0) pc et⟩ ::
          (run_loop R V t p c fuel (a + 1) (extract_python_code (R a))
            (run_test_and_capture_output (V a)).2).gens,
        saveParser (extract_python_code (R a)) ::
          (run_loop R V t p c fuel (a + 1) (extract_python_code (R a))
            (run_test_and_capture_output (V a)).2).writes,
        run_test_and_capture_output (V a) ::
          (run_loop R V t p c fuel (a + 1) (extract_python_code (R a))
            (run_test_and_capture_output (V a)).2).validations⟩ := by
  have hnp : ¬ (run_test_and_capture_output (V a)).1 = "PASS" := by
    rw [hfail]; decide
  simp [run_loop, ha, hapi, hne, hnp]

/-- The fuel parameter of `run_loop` is inert: any two fuels at least
`MAX_ATTEMPTS - attempts` (so any two that let the source's guard, not
the fuel, stop the loop) give the same run.  `run_agent` passes
`MAX_ATTEMPTS` with `attempts = 0`, which satisfies the bound. -/
theorem run_loop_fuel_irrelevant (R : Nat → String) (V : Nat → SubprocResult)
    (t p : String) (c : Option (List String)) :
    ∀ (f1 f2 a : Nat) (pc et : String),
      MAX_ATTEMPTS - a ≤ f1 → MAX_ATTEMPTS - a ≤ f2 →
      run_loop R V t p c f1 a pc et = run_loop R V t p c f2 a pc et := by
  intro f1
  induction f1 with
  | zero =>
    intro f2 a pc et h1 h2
    have ha : ¬ a < MAX_ATTEMPTS := by omega
    rw [run_loop_guard_false R V t p c 0 a pc et ha,
      run_loop_guard_false R V t p c f2 a pc et ha]
  | succ f1 ih =>
    intro f2 a pc et h1 h2
    by_cases ha : a < MAX_ATTEMPTS
    · cases f2 with
      | zero => omega
      | succ f2 =>
        by_cases hapi : strHasSub (R a) "LLM_API_ERROR" = true
        · rw [run_loop_api_step R V t p c f1 a pc et ha hapi,
            run_loop_api_step R V t p c f2 a pc et ha hapi]
        · rw [Bool.not_eq_true] at hapi
          by_cases hemp : pyStrip (extract_python_code (R a)) = ""
          · rw [run_loop_empty_step R V t p c f1 a pc et ha hapi hemp,
              run_loop_empty_step R V t p c f2 a pc et ha hapi hemp]
          · rcases run_test_fst_cases (V a) with hp | hf
            · rw [run_loop_pass_step R V t p c f1 a pc et ha hapi hemp hp,
                run_loop_pass_step R V t p c f2 a pc et ha hapi hemp hp]
            · rw [run_loop_fail_step R V t p c f1 a pc et ha hapi hemp hf,
                run_loop_fail_step R V t p c f2 a pc et ha hapi hemp hf]
              rw [ih f2 (a + 1) (extract_python_code (R a))
                (run_test_and_capture_output (V a)).2 (by omega) (by omega)]
    · rw [run_loop_guard_false R V t p c (f1 + 1) a pc et ha,
        run_loop_guard_false R V t p c f2 a pc et ha]

/-- The attempt counters recorded at the generation states are
consecutive, starting at the entry counter. -/
theorem run_loop_gens_attempts (R : Nat → String) (V : Nat → SubprocResult)
    (t p : String) (c : Option (List String)) :
    ∀ (fuel a : Nat) (pc et : String),
      (run_loop R V t p c fuel a pc et).gens.map IterRecord.attempts =
        List.range' a (run_loop R V t p c fuel a pc et).gens.length := by
  intro fuel
  induction fuel with
  | zero => intro a pc et; rfl
  | succ fuel ih =>
    intro a pc et
    by_cases ha : a < MAX_ATTEMPTS
    · by_cases hapi : strHasSub (R a) "LLM_API_ERROR" = true
      · rw [run_loop_api_step R V t p c fuel a pc et ha hapi]; rfl
      · rw [Bool.not_eq_true] at hapi
        by_cases hemp : pyStrip (extract_python_code (R a)) = ""
        · rw [run_loop_empty_step R V t p c fuel a pc et ha hapi hemp]; rfl
        · rcases run_test_fst_cases (V a) with hp | hf
          · rw [run_loop_pass_step R V t p c fuel a pc et ha hapi hemp hp]; rfl
          · rw [run_loop_fail_step R V t p c fuel a pc et ha hapi hemp hf]
            simp only [List.map_cons, List.length_cons]
            rw [ih (a + 1) (extract_python_code (R a)) (run_test_and_capture_output (V a)).2]
            rw [List.range'_succ]
    · rw [run_loop_guard_false R V t p c (fuel + 1) a pc et ha]; rfl

/-- The feedback context recorded at the generation states: the state
the loop was entered with at its first iteration, then, at each later
iteration, exactly the immediately preceding iteration's extracted code
and captured diagnostic. -/
theorem run_loop_gens_feedback (R : Nat → String) (V : Nat → SubprocResult)
    (t p : String) (c : Option (List String)) :
    ∀ (fuel a : Nat) (pc et : String),
      (run_loop R V t p c fuel a pc et).gens.map
          (fun g => (g.previous_code, g.error_trace)) =
        (List.range' a (run_loop R V t p c fuel a pc et).gens.length).map
          (fun i => if i = a then (pc, et)
            else (extract_python_code (R (i - 1)),
              (run_test_and_capture_output (V (i - 1))).2)) := by
  intro fuel
  induction fuel with
  | zero => intro a pc et; rfl
  | succ fuel ih =>
    intro a pc et
    by_cases ha : a < MAX_ATTEMPTS
    · by_cases hapi : strHasSub (R a) "LLM_API_ERROR" = true
      · rw [run_loop_api_step R V t p c fuel a pc et ha hapi]
        simp
      · rw [Bool.not_eq_true] at hapi
        by_cases hemp : pyStrip (extract_python_code (R a)) = ""
        · rw [run_loop_empty_step R V t p c fuel a pc et ha hapi hemp]
          simp
        · rcases run_test_fst_cases (V a) with hp | hf
          · rw [run_loop_pass_step R V t p c fuel a pc et ha hapi hemp hp]
            simp
          · rw [run_loop_fail_step R V t p c fuel a pc et ha hapi hemp hf]
            simp only [List.map_cons, List.length_cons]
            rw [ih (a + 1) (extract_python_code (R a)) (run_test_and_capture_output (V a)).2]
            rw [List.range'_succ]
            simp only [List.map_cons, if_pos rfl]
            congr 1
            apply List.map_congr_left
            intro x hx
            rcases List.mem_range'.1 hx with ⟨i, hi, rfl⟩
            have hna : a + 1 + 1 * i ≠ a := by omega
            rw [if_neg hna]
            by_cases hx1 : a + 1 + 1 * i = a + 1
            · rw [if_pos hx1, hx1]
              simp
            · rw [if_neg hx1]
    · rw [run_loop_guard_false R V t p c (fuel + 1) a pc et ha]; rfl

/-- Entered with a counter within the budget, the loop keeps both the
final counter and the entry counter plus the number of iterations
within the budget. -/
theorem run_loop_bounds (R : Nat → String) (V : Nat → SubprocResult)
    (t p : String) (c : Option (List String)) :
    ∀ (fuel a : Nat) (pc et : String), a ≤ MAX_ATTEMPTS →
      (run_loop R V t p c fuel a pc et).finalAttempts ≤ MAX_ATTEMPTS ∧
      a + (run_loop R V t p c fuel a pc et).gens.length ≤ MAX_ATTEMPTS := by
  intro fuel
  induction fuel with
  | zero => intro a pc et haMax; exact ⟨haMax, by simpa using haMax⟩
  | succ fuel ih =>
    intro a pc et haMax
    by_cases ha : a < MAX_ATTEMPTS
    · by_cases hapi : strHasSub (R a) "LLM_API_ERROR" = true
      · rw [run_loop_api_step R V t p c fuel a pc et ha hapi]
        exact ⟨haMax, by simpa using ha⟩
      · rw [Bool.not_eq_true] at hapi
        by_cases hemp : pyStrip (extract_python_code (R a)) = ""
        · rw [run_loop_empty_step R V t p c fuel a pc et ha hapi hemp]
          exact ⟨haMax, by simpa using ha⟩
        · rcases run_test_fst_cases (V a) with hp | hf
          · rw [run_loop_pass_step R V t p c fuel a pc et ha hapi hemp hp]
            exact ⟨haMax, by simpa using ha⟩
          · rw [run_loop_fail_step R V t p c fuel a pc et ha hapi hemp hf]
            have h1 := ih (a + 1) (extract_python_code (R a))
              (run_test_and_capture_output (V a)).2 ha
            refine ⟨h1.1, ?_⟩
            simp only [List.length_cons]
            omega
    · rw [run_loop_guard_false R V t p c (fuel + 1) a pc et ha]
      exact ⟨haMax, by simpa using haMax⟩

/-! ## The claims -/

/-- C1 (amended): with a validator that fails on every invocation (and a
model whose responses carry no API-error marker and extract to
non-empty code, so every cycle completes), the controller performs
exactly `MAX_ATTEMPTS = 3` generation/write/validate cycles and ends
exhausted with the counter at the budget; the prompts are, in order,
the initial prompt and then one refinement prompt per later attempt,
each embedding exactly the immediately preceding attempt's extracted
code and diagnostic (never an earlier attempt's); and the initial
prompt differs from every refinement prompt.  (The original claim's
"each prompt distinct" fails: see `c1_identical_prompts_counterexample`.) -/
theorem c1_always_fail_exhausts_budget (R : Nat → String) (V : Nat → SubprocResult)
    (t p : String) (c : Option (List String))
    (hApi : ∀ i, i < MAX_ATTEMPTS → strHasSub (R i) "LLM_API_ERROR" = false)
    (hCode : ∀ i, i < MAX_ATTEMPTS → pyStrip (extract_python_code (R i)) ≠ "")
    (hFail : ∀ i, i < MAX_ATTEMPTS → (run_test_and_capture_output (V i)).1 = "FAIL") :
    (run_agent R V t p c).outcome = Outcome.exhausted ∧
    (run_agent R V t p c).finalAttempts = MAX_ATTEMPTS ∧
    (run_agent R V t p c).gens.length = MAX_ATTEMPTS ∧
    (run_agent R V t p c).writes.length = MAX_ATTEMPTS ∧
    (run_agent R V t p c).validations.length = MAX_ATTEMPTS ∧
    (run_agent R V t p c).gens.map IterRecord.prompt =
      [generate_prompt t p c true "" "",
       generate_prompt t p c false (extract_python_code (R 0))
         (run_test_and_capture_output (V 0)).2,
       generate_prompt t p c false (extract_python_code (R 1))
         (run_test_and_capture_output (V 1)).2] ∧
    (∀ pc et, generate_prompt t p c true "" "" ≠ generate_prompt t p c false pc et) := by
  have step0 : run_loop R V t p c 3 0 "" "" =
      ⟨(run_loop R V t p c 2 1 (extract_python_code (R 0))
          (run_test_and_capture_output (V 0)).2).outcome,
        (run_loop R V t p c 2 1 (extract_python_code (R 0))
          (run_test_and_capture_output (V 0)).2).finalAttempts,
        ⟨0, "", "", generate_prompt t p c true "" ""⟩ ::
          (run_loop R V t p c 2 1 (extract_python_code (R 0))
            (run_test_and_capture_output (V 0)).2).gens,
        saveParser (extract_python_code (R 0)) ::
          (run_loop R V t p c 2 1 (extract_python_code (R 0))
            (run_test_and_capture_output (V 0)).2).writes,
        run_test_and_capture_output (V 0) ::
          (run_loop R V t p c 2 1 (extract_python_code (R 0))
            (run_test_and_capture_output (V 0)).2).validations⟩ :=
    run_loop_fail_step R V t p c 2 0 "" "" (by decide)
      (hApi 0 (by decide)) (hCode 0 (by decide)) (hFail 0 (by decide))
  have step1 : run_loop R V t p c 2 1 (extract_python_code (R 0))
      (run_test_and_capture_output (V 0)).2 =
      ⟨(run_loop R V t p c 1 2 (extract_python_code (R 1))
          (run_test_and_capture_output (V 1)).2).outcome,
        (run_loop R V t p c 1 2 (extract_python_code (R 1))
          (run_test_and_capture_output (V 1)).2).finalAttempts,
        ⟨1, extract_python_code (R 0), (run_test_and_capture_output (V 0)).2,
            generate_prompt t p c false (extract_python_code (R 0))
              (run_test_and_capture_output (V 0)).2⟩ ::
          (run_loop R V t p c 1 2 (extract_python_code (R 1))
            (run_test_and_capture_output (V 1)).2).gens,
        saveParser (extract_python_code (R 1)) ::
          (run_loop R V t p c 1 2 (extract_python_code (R 1))
            (run_test_and_capture_output (V 1)).2).writes,
        run_test_and_capture_output (V 1) ::
          (run_loop R V t p c 1 2 (extract_python_code (R 1))
            (run_test_and_capture_output (V 1)).2).validations⟩ :=
    run_loop_fail_step R V t p c 1 1 _ _ (by decide)
      (hApi 1 (by decide)) (hCode 1 (by decide)) (hFail 1 (by decide))
  have step2 : run_loop R V t p c 1 2 (extract_python_code (R 1))
      (run_test_and_capture_output (V 1)).2 =
      ⟨Outcome.exhausted, 3,
        [⟨2, extract_python_code (R 1), (run_test_and_capture_output (V 1)).2,
            generate_prompt t p c false (extract_python_code (R 1))
              (run_test_and_capture_output (V 1)).2⟩],
        [saveParser (extract_python_code (R 2))],
        [run_test_and_capture_output (V 2)]⟩ :=
    run_loop_fail_step R V t p c 0 2 _ _ (by decide)
      (hApi 2 (by decide)) (hCode 2 (by decide)) (hFail 2 (by decide))
  have e : run_agent R V t p c =
      ⟨Outcome.exhausted, 3,
        [⟨0, "", "", generate_prompt t p c true "" ""⟩,
         ⟨1, extract_python_code (R 0), (run_test_and_capture_output (V 0)).2,
            generate_prompt t p c false (extract_python_code (R 0))
              (run_test_and_capture_output (V 0)).2⟩,
         ⟨2, extract_python_code (R 1), (run_test_and_capture_output (V 1)).2,
            generate_prompt t p c false (extract_python_code (R 1))
              (run_test_and_capture_output (V 1)).2⟩],
        [saveParser (extract_python_code (R 0)), saveParser (extract_python_code (R 1)),
         saveParser (extract_python_code (R 2))],
        [run_test_and_capture_output (V 0), run_test_and_capture_output (V 1),
         run_test_and_capture_output (V 2)]⟩ := by
    show run_loop R V t p c 3 0 "" "" = _
    rw [step0, step1, step2]
  refine ⟨?_, ?_, ?_, ?_, ?_, ?_, fun pc et => generate_prompt_initial_ne t p c "" "" pc et⟩
  all_goals rw [e]
  all_goals rfl

/-- C1 witness: the always-failing concrete run satisfies the theorem's
hypotheses and indeed exhausts the budget. -/
theorem c1_always_fail_witness :
    (run_agent cexR cexV "icici" "sample text" none).outcome = Outcome.exhausted ∧
    (run_agent cexR cexV "icici" "sample text" none).finalAttempts = MAX_ATTEMPTS := by
  have h := c1_always_fail_exhausts_budget cexR cexV "icici" "sample text" none
    (by decide) (by decide) (by decide)
  exact ⟨h.1, h.2.1⟩

/-- C1 counterexample to the claim as stated: with a validator that
fails every invocation with one and the same diagnostic and a model
that repeats its response, the run does perform all three cycles, but
the prompts of the second and third attempt are identical — the three
prompts are not pairwise distinct. -/
theorem c1_identical_prompts_counterexample :
    (run_test_and_capture_output (cexV 0)).1 = "FAIL" ∧
    (run_test_and_capture_output (cexV 1)).1 = "FAIL" ∧
    (run_test_and_capture_output (cexV 2)).1 = "FAIL" ∧
    (run_agent cexR cexV "icici" "sample text" none).outcome = Outcome.exhausted ∧
    (run_agent cexR cexV "icici" "sample text" none).gens.length = 3 ∧
    ((run_agent cexR cexV "icici" "sample text" none).gens.map IterRecord.prompt)[1]? =
      ((run_agent cexR cexV "icici" "sample text" none).gens.map IterRecord.prompt)[2]? := by
  decide

/-- C2 (amended): the process exit status is 1 exactly when a
prerequisite is missing — unset credential, missing fixture files, or
failed PDF text extraction — and 0 in every other case, whatever the
run's outcome (success, fatal generation abort, or exhaustion of the
retry budget). -/
theorem c2_exit_code_classification (ak fe pr : Bool) (R : Nat → String)
    (V : Nat → SubprocResult) (t p : String) (c : Option (List String)) :
    main_exit ak fe pr R V t p c = (if ak && fe && pr then 0 else 1) := by
  cases ak <;> cases fe <;> cases pr <;> simp [main_exit, run_agent_exit]

/-- C2 counterexample to the claim as stated: with every prerequisite
present, a run that exhausts the retry budget exits 0, and so does a
run aborted by an API error — not 1 as the claim requires. -/
theorem c2_exit_zero_on_failure_counterexample :
    main_exit true true true cexR cexV "icici" "sample text" none = 0 ∧
    (run_agent cexR cexV "icici" "sample text" none).outcome = Outcome.exhausted ∧
    main_exit true true true apiR cexV "icici" "sample text" none = 0 ∧
    (run_agent apiR cexV "icici" "sample text" none).outcome = Outcome.abortedApiError ∧
    (0 : Nat) ≠ 1 := by
  decide

/-- C3: when the validator passes on the first attempt (and the first
response is usable), the controller terminates in the success state
after exactly one generation/write/validate cycle, with the attempt
counter still at its initial value 0. -/
theorem c3_first_pass_single_cycle (R : Nat → String) (V : Nat → SubprocResult)
    (t p : String) (c : Option (List String))
    (hApi : strHasSub (R 0) "LLM_API_ERROR" = false)
    (hCode : pyStrip (extract_python_code (R 0)) ≠ "")
    (hPass : (run_test_and_capture_output (V 0)).1 = "PASS") :
    (run_agent R V t p c).outcome = Outcome.success ∧
    (run_agent R V t p c).finalAttempts = 0 ∧
    (run_agent R V t p c).gens.length = 1 ∧
    (run_agent R V t p c).writes.length = 1 ∧
    (run_agent R V t p c).validations.length = 1 := by
  have e : run_agent R V t p c =
      ⟨Outcome.success, 0, [⟨0, "", "", generate_prompt t p c true "" ""⟩],
        [saveParser (extract_python_code (R 0))], [run_test_and_capture_output (V 0)]⟩ :=
    run_loop_pass_step R V t p c 2 0 "" "" (by decide) hApi hCode hPass
  rw [e]
  exact ⟨rfl, rfl, rfl, rfl, rfl⟩

/-- C3 witness: a concrete passing run terminates successfully with the
counter at 0. -/
theorem c3_first_pass_witness :
    (run_agent passR passV "icici" "sample text" none).outcome = Outcome.success ∧
    (run_agent passR passV "icici" "sample text" none).finalAttempts = 0 := by
  have h := c3_first_pass_single_cycle passR passV "icici" "sample text" none
    (by decide) (by decide) (by decide)
  exact ⟨h.1, h.2.1⟩

/-- C4: for every subprocess outcome the verdict is PASS exactly when
the exit status is zero and the `SUCCESS` marker occurs in the combined
captured output; the diagnostic is always the full combined output; and
every other case yields FAIL (so a non-zero exit gives FAIL whatever
the output contains). -/
theorem c4_verdict_iff_marker_and_zero_exit (r : SubprocResult) :
    (run_test_and_capture_output r).2 = r.stdout ++ r.stderr ∧
    ((run_test_and_capture_output r).1 = "PASS" ↔
      (r.returncode = 0 ∧ strHasSub (r.stdout ++ r.stderr) "SUCCESS" = true)) ∧
    ((run_test_and_capture_output r).1 = "PASS" ∨
      (run_test_and_capture_output r).1 = "FAIL") := by
  unfold run_test_and_capture_output
  by_cases h1 : r.returncode = 0
  · by_cases h2 : strHasSub (r.stdout ++ r.stderr) "SUCCESS" = true
    · simp [h1, h2]
    · simp [h1, h2]
  · simp [h1]

/-- C5: a response with no complete fenced Python block makes the
extractor return the whole response stripped (it never fails); and an
iteration whose extracted code strips to empty makes the controller
abort without writing the artifact and without invoking the validator —
in the empty-abort state when the response carries no API-error marker,
and in one of the two abort states unconditionally. -/
theorem c5_extractor_fallback_and_empty_abort :
    (∀ response : String, hasPyFence response = false →
      extract_python_code response = pyStrip response) ∧
    (∀ (R : Nat → String) (V : Nat → SubprocResult) (t p : String)
        (c : Option (List String)) (fuel a : Nat) (pc et : String),
      a < MAX_ATTEMPTS →
      strHasSub (R a) "LLM_API_ERROR" = false →
      pyStrip (extract_python_code (R a)) = "" →
      (run_loop R V t p c (fuel + 1) a pc et).outcome = Outcome.abortedEmpty ∧
      (run_loop R V t p c (fuel + 1) a pc et).writes = [] ∧
      (run_loop R V t p c (fuel + 1) a pc et).validations = []) ∧
    (∀ (R : Nat → String) (V : Nat → SubprocResult) (t p : String)
        (c : Option (List String)) (fuel a : Nat) (pc et : String),
      a < MAX_ATTEMPTS →
      pyStrip (extract_python_code (R a)) = "" →
      (run_loop R V t p c (fuel + 1) a pc et).writes = [] ∧
      (run_loop R V t p c (fuel + 1) a pc et).validations = [] ∧
      ((run_loop R V t p c (fuel + 1) a pc et).outcome = Outcome.abortedEmpty ∨
        (run_loop R V t p c (fuel + 1) a pc et).outcome = Outcome.abortedApiError)) := by
  refine ⟨?_, ?_, ?_⟩
  · intro response h
    unfold extract_python_code
    unfold hasPyFence at h
    cases hsp : splitAfterFirst response.data fenceOpen with
    | none => simp [hsp]
    | some rest =>
      cases htk : takeUntilSub rest fenceClose with
      | none => simp [hsp, htk]
      | some interior => simp [hsp, htk] at h
  · intro R V t p c fuel a pc et ha hapi hemp
    rw [run_loop_empty_step R V t p c fuel a pc et ha hapi hemp]
    exact ⟨rfl, rfl, rfl⟩
  · intro R V t p c fuel a pc et ha hemp
    by_cases hapi : strHasSub (R a) "LLM_API_ERROR" = true
    · rw [run_loop_api_step R V t p c fuel a pc et ha hapi]
      exact ⟨rfl, rfl, Or.inr rfl⟩
    · rw [Bool.not_eq_true] at hapi
      rw [run_loop_empty_step R V t p c fuel a pc et ha hapi hemp]
      exact ⟨rfl, rfl, Or.inl rfl⟩

/-- C5 witness: a fence-less response falls back to the stripped whole
response, and a whitespace-only response makes the concrete run abort
empty. -/
theorem c5_empty_abort_witness :
    extract_python_code "no fenced block here" = pyStrip "no fenced block here" ∧
    (run_loop emptyR cexV "icici" "sample text" none 3 0 "" "").outcome =
      Outcome.abortedEmpty := by
  have h := c5_extractor_fallback_and_empty_abort
  exact ⟨h.1 "no fenced block here" (by decide),
    (h.2.1 emptyR cexV "icici" "sample text" none 2 0 "" ""
      (by decide) (by decide) (by decide)).1⟩

/-- C6: for every generated code string and every prior file content,
the artifact written is the fixed dependency preamble (the three
required import declarations and a blank line) followed by the
generated code, and the write ignores — fully replaces — whatever was
at the path before. -/
theorem c6_artifact_preamble_and_overwrite (prior : Option String) (code : String) :
    writeParserFile prior code = some (saveParser code) ∧
    saveParser code = "import pandas as pd\nimport pdfplumber\nimport re\n\n" ++ code ∧
    charsStartWith (saveParser code).data
      ("import pandas as pd\nimport pdfplumber\nimport re\n\n" : String).data = true ∧
    writeParserFile prior code = writeParserFile none code := by
  refine ⟨rfl, rfl, ?_, rfl⟩
  have h : saveParser code =
      "import pandas as pd\nimport pdfplumber\nimport re\n\n" ++ code := rfl
  rw [h, String.data_append]
  exact charsStartWith_append _ _

/-- C7: throughout every run the attempt counter observed at the
`GENERATING` states is `0, 1, 2, ...` in order (monotonically
non-decreasing), the number of iterations and the final counter never
exceed the budget `MAX_ATTEMPTS = 3`, and the feedback context at each
generation is empty on the first attempt and exactly the immediately
preceding attempt's extracted code and captured diagnostic afterwards. -/
theorem c7_counter_and_feedback_invariants (R : Nat → String) (V : Nat → SubprocResult)
    (t p : String) (c : Option (List String)) :
    (run_agent R V t p c).gens.map IterRecord.attempts =
      List.range (run_agent R V t p c).gens.length ∧
    (run_agent R V t p c).gens.length ≤ MAX_ATTEMPTS ∧
    (run_agent R V t p c).finalAttempts ≤ MAX_ATTEMPTS ∧
    (run_agent R V t p c).gens.map (fun g => (g.previous_code, g.error_trace)) =
      (List.range (run_agent R V t p c).gens.length).map
        (fun i => if i = 0 then ("", "")
          else (extract_python_code (R (i - 1)),
            (run_test_and_capture_output (V (i - 1))).2)) := by
  have hb := run_loop_bounds R V t p c MAX_ATTEMPTS 0 "" "" (by decide)
  refine ⟨?_, by simpa using hb.2, hb.1, ?_⟩
  · rw [List.range_eq_range']
    exact run_loop_gens_attempts R V t p c MAX_ATTEMPTS 0 "" ""
  · rw [List.range_eq_range']
    exact run_loop_gens_feedback R V t p c MAX_ATTEMPTS 0 "" ""

/-- C8: the validator runner is a total function of the subprocess
outcome — every behaviour of the subprocess yields a verdict, PASS or
FAIL, rather than an exception — and every failure carries the full
captured text as its diagnostic. -/
theorem c8_validator_total_fail_surface (r : SubprocResult) :
    ((run_test_and_capture_output r).1 = "PASS" ∨
      (run_test_and_capture_output r).1 = "FAIL") ∧
    ((run_test_and_capture_output r).1 = "FAIL" →
      (run_test_and_capture_output r).2 = r.stdout ++ r.stderr) ∧
    (¬ (r.returncode = 0 ∧ strHasSub (r.stdout ++ r.stderr) "SUCCESS" = true) →
      run_test_and_capture_output r = ("FAIL", r.stdout ++ r.stderr)) := by
  unfold run_test_and_capture_output
  by_cases h1 : r.returncode = 0
  · by_cases h2 : strHasSub (r.stdout ++ r.stderr) "SUCCESS" = true
    · simp [h1, h2]
    · simp [h1, h2]
  · simp [h1]

/-- C9: evaluating the generated parser on a table whose transaction row
carries the `Debit Amt` cell `"0"`: the result keeps the target column
set and the normalised date, but its Withdrawal value is `some 0` — a
present, non-positive number — contradicting the positive-or-missing
contract (the agent's own schema, `CSV_SCHEMA_PROMPT`, demands NaN for
zero values). -/
theorem c9_zero_withdrawal_not_positive :
    icici_parse c9_input =
      ⟨target_schema_columns,
        [⟨"2024-01-01", "desc", some (0 : ℚ), none, some (100 : ℚ)⟩]⟩ ∧
    ¬ (0 : ℚ) < 0 := by
  constructor
  · decide
  · decide

/-- C10: whenever the text returned for the model call contains the
substring `"LLM_API_ERROR"` — the abort condition is substring
containment in the response body, not an out-of-band signal — the
controller breaks at that iteration: the run ends in the API-error
abort state with no code extracted for saving, no artifact written and
no validator invocation. -/
theorem c10_api_error_substring_aborts (R : Nat → String) (V : Nat → SubprocResult)
    (t p : String) (c : Option (List String)) (fuel a : Nat) (pc et : String)
    (ha : a < MAX_ATTEMPTS)
    (hapi : strHasSub (R a) "LLM_API_ERROR" = true) :
    run_loop R V t p c (fuel + 1) a pc et =
      ⟨Outcome.abortedApiError, a,
        [⟨a, pc, et, generate_prompt t p c (a == 0) pc et⟩], [], []⟩ ∧
    (run_loop R V t p c (fuel + 1) a pc et).writes = [] ∧
    (run_loop R V t p c (fuel + 1) a pc et).validations = [] := by
  have e := run_loop_api_step R V t p c fuel a pc et ha hapi
  rw [e]
  exact ⟨rfl, rfl, rfl⟩

/-- C10 witness: a concrete first-attempt response carrying the marker
makes the run abort at once with nothing written and nothing validated. -/
theorem c10_api_error_witness :
    run_loop apiR cexV "icici" "sample text" none 3 0 "" "" =
      ⟨Outcome.abortedApiError, 0,
        [⟨0, "", "", generate_prompt "icici" "sample text" none true "" ""⟩],
        [], []⟩ := by
  have h := c10_api_error_substring_aborts apiR cexV "icici" "sample text" none 2 0 "" ""
    (by decide) (by decide)
  exact h.1
